import Mathlib

/-!
Verification of the adaptive UI-action engine of the blog-writer repository.

The definitions below are a shallow embedding of the Python sources
`src/publisher/adaptive_publisher.py`, `src/publisher/naver_publisher.py`,
`src/publisher/watchdogs/base.py`, `src/publisher/watchdogs/popup_watchdog.py`
and `src/publisher/components/image_handler.py`.  Synthetic input dispatch
(CDP `Input.dispatchMouseEvent` / `Input.dispatchKeyEvent`) is modelled as a
trace of `Step`s: dispatched events interleaved with the `asyncio.sleep`
pauses of the source, with durations in milliseconds.  Pixel coordinates are
modelled as exact rationals.
-/

namespace BlogWriter

/-- Pixel coordinates of a point, as produced by `rect.x + rect.width/2` etc. -/
abbrev Coord := Rat × Rat

/-- Kinds of `Input.dispatchMouseEvent` used by the sources. -/
inductive MouseKind
  | moved
  | pressed
  | released
  | wheel
  deriving DecidableEq, Repr

/-- One CDP mouse event: kind, coordinates, and the optional `button`,
`clickCount` and `deltaY` fields the source sometimes sets. -/
structure MouseEvt where
  kind : MouseKind
  x : Rat
  y : Rat
  button : Option String
  clickCount : Option Nat
  deltaY : Option Int
  deriving DecidableEq, Repr

/-- Kinds of `Input.dispatchKeyEvent` used by the sources. -/
inductive KeyKind
  | keyDown
  | char
  | keyUp
  deriving DecidableEq, Repr

/-- One CDP key event: kind, `key`, and the optional `text`, `code`,
`windowsVirtualKeyCode` and `modifiers` fields the source sometimes sets. -/
structure KeyEvt where
  kind : KeyKind
  key : String
  text : Option String
  code : Option String
  wvk : Option Nat
  modifiers : Option Nat
  deriving DecidableEq, Repr

/-- One observable step of an input-simulation routine: a dispatched mouse or
key event, or an `asyncio.sleep` of the given number of milliseconds. -/
inductive Step
  | mouse (e : MouseEvt)
  | key (e : KeyEvt)
  | sleepMs (ms : Rat)
  deriving DecidableEq, Repr

/-- The key events of a trace, in order (sleeps and mouse events dropped). -/
def keyEvtsOf (steps : List Step) : List KeyEvt :=
  steps.filterMap fun s =>
    match s with
    | .key e => some e
    | _ => none

/-- The mouse-event kinds of a trace, in order. -/
def mouseKinds (steps : List Step) : List MouseKind :=
  steps.filterMap fun s =>
    match s with
    | .mouse e => some e.kind
    | _ => none

/-- The sleep durations of a trace, in order (milliseconds). -/
def sleepsOf (steps : List Step) : List Rat :=
  steps.filterMap fun s =>
    match s with
    | .sleepMs ms => some ms
    | _ => none

/-- The `text` payloads of the `char`-kind key events of a trace, in order:
exactly the character data a CDP consumer would insert. -/
def charTexts (steps : List Step) : List String :=
  steps.filterMap fun s =>
    match s with
    | .key e =>
      match e.kind with
      | .char => e.text
      | _ => none
    | _ => none

/-! ## Synthetic input simulator

`AdaptivePublisher._click_at` (adaptive_publisher.py lines 377-391),
`AdaptivePublisher._type_text` (lines 393-420, identical to
`NaverBlogPublisher._type_text` in naver_publisher.py lines 171-215),
`AdaptivePublisher._press_escape` (lines 422-431) and
`AdaptivePublisher._scroll` (lines 433-439). -/

/-- Model of `_click_at(x, y)`: mouseMoved, sleep 0.05s, mousePressed, sleep 0.05s,
mouseReleased, all at the same coordinate. -/
def clickAt (x y : Rat) : List Step :=
  [Step.mouse ⟨MouseKind.moved, x, y, none, none, none⟩,
   Step.sleepMs 50,
   Step.mouse ⟨MouseKind.pressed, x, y, some "left", some 1, none⟩,
   Step.sleepMs 50,
   Step.mouse ⟨MouseKind.released, x, y, some "left", some 1, none⟩]

/-- Model of `BaseWatchdog.click_at` (watchdogs/base.py lines 133-155): the same
three-event, two-sleep sequence as `AdaptivePublisher._click_at`. -/
def watchdogClickAt (x y : Rat) : List Step :=
  [Step.mouse ⟨MouseKind.moved, x, y, none, none, none⟩,
   Step.sleepMs 50,
   Step.mouse ⟨MouseKind.pressed, x, y, some "left", some 1, none⟩,
   Step.sleepMs 50,
   Step.mouse ⟨MouseKind.released, x, y, some "left", some 1, none⟩]

/-- The synthetic Enter keyDown event (`key "Enter"`, `code "Enter"`,
`windowsVirtualKeyCode 13`, no `text`). -/
def enterDown : KeyEvt := ⟨KeyKind.keyDown, "Enter", none, some "Enter", some 13, none⟩

/-- The synthetic Enter char event: `text "\r"`, `key "Enter"`. -/
def enterChar : KeyEvt := ⟨KeyKind.char, "Enter", some "\r", none, none, none⟩

/-- The synthetic Enter keyUp event. -/
def enterUp : KeyEvt := ⟨KeyKind.keyUp, "Enter", none, some "Enter", some 13, none⟩

/-- The three key events `_type_text` emits for one character: for a newline
the synthetic Enter sequence, otherwise keyDown (no `text`), char (the
character as `text`), keyUp. -/
def charKeyEvts (c : Char) : List KeyEvt :=
  if c = '\n' then
    [enterDown, enterChar, enterUp]
  else
    [⟨KeyKind.keyDown, String.singleton c, none, none, none, none⟩,
     ⟨KeyKind.char, String.singleton c, some (String.singleton c), none, none, none⟩,
     ⟨KeyKind.keyUp, String.singleton c, none, none, none, none⟩]

/-- The trace `_type_text` produces for one character: the three key events
with the source's `sleep(0.001)` after keyDown and the per-character
`delay_ms / 1000` pause at the end. -/
def typeCharSteps (c : Char) (delayMs : Rat) : List Step :=
  if c = '\n' then
    [Step.key enterDown, Step.sleepMs 1, Step.key enterChar, Step.key enterUp,
     Step.sleepMs delayMs]
  else
    [Step.key ⟨KeyKind.keyDown, String.singleton c, none, none, none, none⟩,
     Step.sleepMs 1,
     Step.key ⟨KeyKind.char, String.singleton c, some (String.singleton c), none, none, none⟩,
     Step.key ⟨KeyKind.keyUp, String.singleton c, none, none, none, none⟩,
     Step.sleepMs delayMs]

/-- Model of `_type_text(text, delay_ms)`: the per-character traces concatenated in
input order (default `delay_ms = 18`). -/
def typeText (s : String) (delayMs : Rat := 18) : List Step :=
  s.data.flatMap (fun c => typeCharSteps c delayMs)

/-- Model of `_press_escape()`: keyDown Escape then keyUp Escape. -/
def pressEscapeSteps : List Step :=
  [Step.key ⟨KeyKind.keyDown, "Escape", none, some "Escape", some 27, none⟩,
   Step.key ⟨KeyKind.keyUp, "Escape", none, some "Escape", some 27, none⟩]

/-- Model of `_scroll(direction)`: a single mouseWheel event at (500, 400) with
`deltaY = 300` for "down" and `-300` otherwise (`amount` default 300). -/
def scrollSteps (direction : String) : List Step :=
  [Step.mouse ⟨MouseKind.wheel, 500, 400, none, none,
    some (if direction = "down" then (300 : Int) else -300)⟩]

theorem keyEvtsOf_append (a b : List Step) :
    keyEvtsOf (a ++ b) = keyEvtsOf a ++ keyEvtsOf b := by
  simp [keyEvtsOf, List.filterMap_append]

theorem keyEvtsOf_typeCharSteps (c : Char) (d : Rat) :
    keyEvtsOf (typeCharSteps c d) = charKeyEvts c := by
  by_cases h : c = '\n' <;> simp [typeCharSteps, charKeyEvts, keyEvtsOf, h]

theorem keyEvtsOf_typeText (s : String) (d : Rat) :
    keyEvtsOf (typeText s d) = s.data.flatMap charKeyEvts := by
  unfold typeText
  induction s.data with
  | nil => simp [keyEvtsOf]
  | cons c cs ih =>
    simp only [List.flatMap_cons, keyEvtsOf_append, ih, keyEvtsOf_typeCharSteps]

theorem charKeyEvts_keyDown_no_text (c : Char) :
    ∀ e ∈ charKeyEvts c, e.kind = KeyKind.keyDown → e.text = none := by
  by_cases h : c = '\n' <;>
    simp [charKeyEvts, h, enterDown, enterChar, enterUp]

/-- C1.  `_type_text` emits, for each character, exactly the three key events
`charKeyEvts` prescribes: for a non-newline character keyDown (carrying no
`text`), then char (carrying the character as `text`), then keyUp; for a
newline the synthetic Enter sequence.  No keyDown event in any emitted trace
ever carries a `text` field. -/
theorem type_text_event_shape (s : String) (d : Rat) :
    keyEvtsOf (typeText s d) = s.data.flatMap charKeyEvts
    ∧ (∀ e ∈ keyEvtsOf (typeText s d), e.kind = KeyKind.keyDown → e.text = none)
    ∧ (∀ c : Char, ¬ c = '\n' →
        charKeyEvts c =
          [⟨KeyKind.keyDown, String.singleton c, none, none, none, none⟩,
           ⟨KeyKind.char, String.singleton c, some (String.singleton c), none, none, none⟩,
           ⟨KeyKind.keyUp, String.singleton c, none, none, none, none⟩])
    ∧ charKeyEvts '\n' = [enterDown, enterChar, enterUp] := by
  refine ⟨keyEvtsOf_typeText s d, ?_, ?_, by simp [charKeyEvts]⟩
  · intro e he hk
    rw [keyEvtsOf_typeText] at he
    rcases List.mem_flatMap.mp he with ⟨c, _, hc⟩
    exact charKeyEvts_keyDown_no_text c e hc hk
  · intro c hc
    simp [charKeyEvts, hc]

/-- Witness for C1 at the concrete input `"a\n"`. -/
theorem type_text_event_shape_witness :
    keyEvtsOf (typeText "a\n" 18) = "a\n".data.flatMap charKeyEvts
    ∧ charKeyEvts 'a' =
        [⟨KeyKind.keyDown, "a", none, none, none, none⟩,
         ⟨KeyKind.char, "a", some "a", none, none, none⟩,
         ⟨KeyKind.keyUp, "a", none, none, none, none⟩] := by
  refine ⟨(type_text_event_shape "a\n" 18).1, ?_⟩
  have h := (type_text_event_shape "a\n" 18).2.2.1 'a' (by decide)
  simpa using h

/-! ## Image-handler click (components/image_handler.py lines 139-176)

`ImageHandler._click_image_button` probes the image-button selector; on
`found: false` it returns False without dispatching anything, and on success
it dispatches only mousePressed then mouseReleased at the button's center —
no mouseMoved and no sleeps, unlike `_click_at`. -/

/-- Model of `ImageHandler._click_image_button`, with the in-page probe result
(`found`/center coordinates) supplied as input. -/
def clickImageButton (probe : Option Coord) : Bool × List Step :=
  match probe with
  | none => (false, [])
  | some c =>
    (true,
     [Step.mouse ⟨MouseKind.pressed, c.1, c.2, some "left", some 1, none⟩,
      Step.mouse ⟨MouseKind.released, c.1, c.2, some "left", some 1, none⟩])

/-- Counterexample to C5: at the concrete probe result `(1, 2)` the image
handler's click operation dispatches only `[mousePressed, mouseReleased]` —
not the claimed `mouseMoved → mousePressed → mouseReleased` sequence — and
its trace contains no inter-event delay at all. -/
theorem click_image_button_not_three_events :
    mouseKinds (clickImageButton (some ((1 : Rat), (2 : Rat)))).2
      = [MouseKind.pressed, MouseKind.released]
    ∧ ¬ mouseKinds (clickImageButton (some ((1 : Rat), (2 : Rat)))).2
        = [MouseKind.moved, MouseKind.pressed, MouseKind.released]
    ∧ sleepsOf (clickImageButton (some ((1 : Rat), (2 : Rat)))).2 = [] := by
  refine ⟨by simp [clickImageButton, mouseKinds], ?_, by simp [clickImageButton, sleepsOf]⟩
  simp [clickImageButton, mouseKinds]

/-- C5 (amended).  The primary click primitives — `_click_at` of the adaptive
publisher and `BaseWatchdog.click_at` — emit exactly mouseMoved, mousePressed,
mouseReleased, all at the same coordinate, with a 50 ms sleep between
consecutive events; `ImageHandler._click_image_button`, by contrast, emits
only mousePressed then mouseReleased at the button center, with no mouseMoved
event and no delay. -/
theorem click_event_shapes (x y : Rat) (c : Coord) :
    mouseKinds (clickAt x y) = [MouseKind.moved, MouseKind.pressed, MouseKind.released]
    ∧ (∀ e, Step.mouse e ∈ clickAt x y → e.x = x ∧ e.y = y)
    ∧ sleepsOf (clickAt x y) = [50, 50]
    ∧ watchdogClickAt x y = clickAt x y
    ∧ mouseKinds (clickImageButton (some c)).2 = [MouseKind.pressed, MouseKind.released]
    ∧ (∀ e, Step.mouse e ∈ (clickImageButton (some c)).2 → e.x = c.1 ∧ e.y = c.2)
    ∧ sleepsOf (clickImageButton (some c)).2 = [] := by
  refine ⟨by simp [clickAt, mouseKinds], ?_, by simp [clickAt, sleepsOf],
    by simp [clickAt, watchdogClickAt],
    by simp [clickImageButton, mouseKinds], ?_, by simp [clickImageButton, sleepsOf]⟩
  · intro e he
    simp only [clickAt, List.mem_cons, List.not_mem_nil, or_false] at he
    rcases he with he | he | he | he | he <;> simp_all
  · intro e he
    simp only [clickImageButton, List.mem_cons, List.not_mem_nil, or_false] at he
    rcases he with he | he <;> simp_all

/-- Witness for C5 (amended) at `x = 3`, `y = 4`, `c = (1, 2)`. -/
theorem click_event_shapes_witness :
    sleepsOf (clickAt 3 4) = [50, 50]
    ∧ ((clickImageButton (some ((1 : Rat), (2 : Rat)))).2.head?.elim True
        (fun s => s ≠ Step.sleepMs 50)) := by
  refine ⟨(click_event_shapes 3 4 ((1 : Rat), (2 : Rat))).2.2.1, ?_⟩
  simp [clickImageButton]

/-! ## Watchdog event history (watchdogs/base.py lines 82-123,
popup_watchdog.py lines 37-50)

The wrapped handler installed by `BaseWatchdog._register_handler` appends a
`{event, params}` record to `self._event_history` on every delivered event;
`PopupWatchdog.on_Page_javascriptDialogOpening` likewise appends one record
to `self._dialog_history` per dialog.  Neither list is ever truncated. -/

/-- The in-memory state a watchdog keeps for diagnosis: the recorded
`{event, params}` history (params modelled as an opaque payload `α`). -/
structure WatchdogState (α : Type) where
  event_history : List (String × α)
  deriving DecidableEq, Repr

/-- A freshly constructed watchdog: empty history. -/
def initWatchdog {α : Type} : WatchdogState α := ⟨[]⟩

/-- The history update the wrapped handler performs for one delivered event:
`self._event_history.append({'event': event_name, 'params': params})`. -/
def recordEvent {α : Type} (st : WatchdogState α) (name : String) (params : α) :
    WatchdogState α :=
  { st with event_history := st.event_history ++ [(name, params)] }

/-- Delivering a sequence of events to an attached watchdog, in order. -/
def deliverEvents {α : Type} (st : WatchdogState α) (evs : List (String × α)) :
    WatchdogState α :=
  evs.foldl (fun s e => recordEvent s e.1 e.2) st

/-- One record of `PopupWatchdog._dialog_history`. -/
structure DialogRecord where
  type_ : String
  message : String
  default_prompt : String
  deriving DecidableEq, Repr

/-- Model of `PopupWatchdog.on_Page_javascriptDialogOpening`'s history update:
one appended record per dialog event. -/
def recordDialog (hist : List DialogRecord) (d : DialogRecord) : List DialogRecord :=
  hist ++ [d]

theorem deliverEvents_length {α : Type} (evs : List (String × α)) (st : WatchdogState α) :
    (deliverEvents st evs).event_history.length
      = st.event_history.length + evs.length := by
  induction evs generalizing st with
  | nil => simp [deliverEvents]
  | cons e es ih =>
    simp only [deliverEvents, List.foldl_cons] at *
    rw [ih]
    simp [recordEvent]
    omega

/-- Counterexample to C9: no fixed bound caps the stored event history — for
every candidate bound `B`, delivering `B + 1` events (concretely, `B + 1`
copies of the record `("Page.javascriptDialogOpening", 0)`) to a fresh
watchdog leaves a history of length `B + 1 > B`. -/
theorem event_history_unbounded :
    ¬ ∃ B : Nat, ∀ evs : List (String × Nat),
        (deliverEvents initWatchdog evs).event_history.length ≤ B := by
  rintro ⟨B, h⟩
  have hb := h (List.replicate (B + 1) ("Page.javascriptDialogOpening", 0))
  rw [deliverEvents_length] at hb
  simp [initWatchdog] at hb

/-- C9 (amended).  A watchdog's stored histories are unbounded: every
delivered event appends exactly one record, so after delivering `evs` the
event history holds the initial records followed by one record per delivered
event (and the popup watchdog's dialog history likewise grows by one record
per dialog).  No truncation ever occurs. -/
theorem event_history_append_per_event {α : Type} (st : WatchdogState α)
    (evs : List (String × α)) (hist : List DialogRecord) (d : DialogRecord) :
    (deliverEvents st evs).event_history = st.event_history ++ evs
    ∧ (deliverEvents st evs).event_history.length
        = st.event_history.length + evs.length
    ∧ recordDialog hist d = hist ++ [d] := by
  refine ⟨?_, deliverEvents_length evs st, rfl⟩
  induction evs generalizing st with
  | nil => simp [deliverEvents]
  | cons e es ih =>
    simp only [deliverEvents, List.foldl_cons] at *
    rw [ih]
    simp [recordEvent]

/-! ## Python string primitives

Exact models of the Python/JavaScript string operations the sources rely on:
`str.find` (first index of a substring, `-1` if absent), slicing with
possibly-negative end index, and the substring test `pat in s`. -/

/-- Python `hay.find(pat)` starting at running index `idx`: the first index at which
`pat` occurs, `-1` if it does not occur. -/
def pyFindFrom (pat : List Char) : List Char → Nat → Int
  | [], idx => if pat.isPrefixOf [] then (idx : Int) else -1
  | c :: t, idx => if pat.isPrefixOf (c :: t) then (idx : Int) else pyFindFrom pat t (idx + 1)

/-- Python `s.find(pat)`. -/
def pyFind (s pat : String) : Int :=
  pyFindFrom pat.data s.data 0

/-- Python `s.find(pat, start)` for a non-negative `start`. -/
def pyFindAfter (s pat : String) (start : Nat) : Int :=
  let r := pyFindFrom pat.data (s.data.drop start) 0
  if r < 0 then -1 else r + start

/-- Clamp a Python slice index (negative values count from the end) into
`[0, n]`. -/
def pyIdx (n : Nat) (i : Int) : Nat :=
  if i < 0 then ((n : Int) + i).toNat else min i.toNat n

/-- Python `s[a:b]`. -/
def pySlice (s : String) (a b : Int) : String :=
  let n := s.data.length
  let lo := pyIdx n a
  let hi := pyIdx n b
  String.mk ((s.data.drop lo).take (hi - lo))

/-- Python `pat in s` / JavaScript `s.includes(pat)`. -/
def strContains (s pat : String) : Bool :=
  decide (0 ≤ pyFind s pat)

/-! ## Page model and DOM snapshot
(`AdaptivePublisher._get_dom_snapshot`, adaptive_publisher.py lines 112-220)

The in-page probe script is modelled as a pure function of a `PageModel`
describing what the fixed selector set would observe on the live page. -/

/-- A bounding client rect. -/
structure Rect where
  x : Rat
  y : Rat
  w : Rat
  h : Rat
  deriving DecidableEq, Repr

/-- The clickable center `[rect.x + rect.width/2, rect.y + rect.height/2]`. -/
def rectCenter (r : Rect) : Coord :=
  (r.x + r.w / 2, r.y + r.h / 2)

/-- What the fixed probe selectors would find on the live page:
the title paragraph (`.se-documentTitle .se-text-paragraph`, with innerText),
the first body paragraph (`.se-component.se-text .se-text-paragraph`),
the elements addressable by `[data-name=...]` (name, rect, innerText),
every `<button>` (rect, innerText), the popup/modal candidates
(className, rect, whether `display` is `none`) and the visible input fields
(type, placeholder, rect). -/
structure PageModel where
  url : String
  title : String
  titleEl : Option (Rect × String)
  bodyEl : Option Rect
  dataNameEls : List (String × Rect × String)
  buttons : List (Rect × String)
  popups : List (String × Rect × Bool)
  inputFields : List (String × String × Rect)
  deriving DecidableEq, Repr

/-- A snapshot entry for the title region: `{found, text, coords}`. -/
structure TitleEntry where
  found : Bool
  text : String
  coords : Coord
  deriving DecidableEq, Repr

/-- A snapshot entry for the body region: `{found, coords}`. -/
structure BodyEntry where
  found : Bool
  coords : Coord
  deriving DecidableEq, Repr

/-- A snapshot toolbar entry: `{found, text, coords}`. -/
structure ToolEntry where
  found : Bool
  text : String
  coords : Coord
  deriving DecidableEq, Repr

/-- A snapshot modal entry: `{className, rect}`. -/
structure ModalEntry where
  className : String
  rect : Rect
  deriving DecidableEq, Repr

/-- A snapshot input-field entry: `{type, placeholder, coords}`. -/
structure InputEntry where
  type_ : String
  placeholder : String
  coords : Coord
  deriving DecidableEq, Repr

/-- The structured record `_get_dom_snapshot` returns.  An element the probe
did not find has no entry at all: `editor.title` / `editor.body` stay unset
and the toolbar map lacks the key. -/
structure DomSnapshot where
  url : String
  title : String
  editorTitle : Option TitleEntry
  editorBody : Option BodyEntry
  toolbar : List (String × ToolEntry)
  modals : List ModalEntry
  inputs : List InputEntry
  deriving DecidableEq, Repr

/-- The fixed `toolButtons` list of the probe script. -/
def toolButtons : List String :=
  ["image", "oglink", "quotation", "horizontal-line",
   "bold", "italic", "underline", "font-size"]

/-- Model of `document.querySelector('[data-name="name"]')`: the first matching
element. -/
def findDataName (page : PageModel) (name : String) : Option (Rect × String) :=
  page.dataNameEls.findSome? fun e =>
    if e.1 = name then some (e.2.1, e.2.2) else none

/-- The toolbar entry the probe records for one `data-name`: present only if
the element exists and `rect.width > 0`, with `found: true`, the trimmed
innerText and the center coordinates. -/
def toolEntryFor (page : PageModel) (name : String) : Option ToolEntry :=
  match findDataName page name with
  | some (r, txt) => if r.w > 0 then some ⟨true, txt.trim, rectCenter r⟩ else none
  | none => none

/-- The `toolbar['material']` entry: the button loop assigns (and reassigns)
for every `<button>` whose trimmed text contains `글감` and whose width is
positive, so the last such button wins. -/
def materialEntry (page : PageModel) : Option ToolEntry :=
  page.buttons.foldl
    (fun acc b =>
      let t := b.2.trim
      if strContains t "글감" ∧ b.1.w > 0 then some ⟨true, t, rectCenter b.1⟩ else acc)
    none

/-- The `toolbar['publish']` entry: assigned for every `<button>` whose
trimmed text equals `발행` (no width check), last one wins. -/
def publishEntry (page : PageModel) : Option ToolEntry :=
  page.buttons.foldl
    (fun acc b =>
      let t := b.2.trim
      if t = "발행" then some ⟨true, t, rectCenter b.1⟩ else acc)
    none

/-- Model of `AdaptivePublisher._get_dom_snapshot`: the probe script as a pure
function of the page model. -/
def getDomSnapshot (page : PageModel) : DomSnapshot :=
  { url := page.url
    title := page.title
    editorTitle := page.titleEl.map fun rt => ⟨true, rt.2, rectCenter rt.1⟩
    editorBody := page.bodyEl.map fun r => ⟨true, (r.x + 50, r.y + 20)⟩
    toolbar :=
      (toolButtons.filterMap fun n => (toolEntryFor page n).map fun e => (n, e))
      ++ ((materialEntry page).elim [] fun e => [("material", e)])
      ++ ((publishEntry page).elim [] fun e => [("publish", e)])
    modals := page.popups.filterMap fun p =>
      if p.2.1.w > 100 ∧ p.2.2 = false then some ⟨p.1, p.2.1⟩ else none
    inputs := page.inputFields.filterMap fun i =>
      if i.2.2.w > 50 then
        some ⟨if i.1.isEmpty then "text" else i.1, i.2.1, rectCenter i.2.2⟩
      else none }

/-- A page on which none of the probed elements exist. -/
def emptyPage : PageModel :=
  { url := "about:blank", title := "", titleEl := none, bodyEl := none,
    dataNameEls := [], buttons := [], popups := [], inputFields := [] }

theorem foldl_entry_found {β : Type} (f : Option ToolEntry → β → Option ToolEntry)
    (hf : ∀ acc b, f acc b = acc ∨ ∃ e, f acc b = some e ∧ e.found = true)
    (l : List β) (acc : Option ToolEntry)
    (hacc : ∀ e, acc = some e → e.found = true) :
    ∀ e, l.foldl f acc = some e → e.found = true := by
  induction l generalizing acc with
  | nil => exact hacc
  | cons b bs ih =>
    intro e he
    refine ih (f acc b) ?_ e he
    intro e' he'
    rcases hf acc b with h | ⟨e'', he'', hfound⟩
    · exact hacc e' (h ▸ he')
    · rw [he''] at he'
      exact (Option.some_inj.mp he') ▸ hfound

theorem materialEntry_found (page : PageModel) :
    ∀ e, materialEntry page = some e → e.found = true := by
  refine foldl_entry_found _ ?_ page.buttons none (by simp)
  intro acc b
  by_cases h : strContains b.2.trim "글감" ∧ b.1.w > 0
  · exact Or.inr ⟨⟨true, b.2.trim, rectCenter b.1⟩, by simp [h], rfl⟩
  · exact Or.inl (by simp [h])

theorem publishEntry_found (page : PageModel) :
    ∀ e, publishEntry page = some e → e.found = true := by
  refine foldl_entry_found _ ?_ page.buttons none (by simp)
  intro acc b
  by_cases h : b.2.trim = "발행"
  · exact Or.inr ⟨⟨true, b.2.trim, rectCenter b.1⟩, by simp [h], rfl⟩
  · exact Or.inl (by simp [h])

/-- Counterexample to C8: on a page where the title element is absent, the
snapshot does not represent the absence by an entry with `found: false` —
there is no `editor.title` entry at all. -/
theorem snapshot_absent_title_no_entry :
    ¬ ∃ e : TitleEntry,
        (getDomSnapshot emptyPage).editorTitle = some e ∧ e.found = false := by
  rintro ⟨e, he, -⟩
  simp [getDomSnapshot, emptyPage] at he

/-- C8 (amended).  The snapshot capture never raises on missing elements: it
is a total function of the observed page, and it represents an absent element
by omitting that entry — an absent title or body paragraph leaves
`editor.title` / `editor.body` unset, a `[data-name]` control that is absent
(or has zero width) gets no toolbar entry — while every entry that is present
carries `found: true`. -/
theorem snapshot_absence_representation (page : PageModel) :
    (page.titleEl = none → (getDomSnapshot page).editorTitle = none)
    ∧ (page.bodyEl = none → (getDomSnapshot page).editorBody = none)
    ∧ (∀ n, findDataName page n = none → toolEntryFor page n = none)
    ∧ (∀ e, (getDomSnapshot page).editorTitle = some e → e.found = true)
    ∧ (∀ e, (getDomSnapshot page).editorBody = some e → e.found = true)
    ∧ (∀ ne ∈ (getDomSnapshot page).toolbar, ne.2.found = true) := by
  refine ⟨fun h => by simp [getDomSnapshot, h], fun h => by simp [getDomSnapshot, h],
    fun n h => by simp [toolEntryFor, h], ?_, ?_, ?_⟩
  · intro e he
    simp only [getDomSnapshot, Option.map_eq_some'] at he
    rcases he with ⟨rt, -, rfl⟩
    rfl
  · intro e he
    simp only [getDomSnapshot, Option.map_eq_some'] at he
    rcases he with ⟨r, -, rfl⟩
    rfl
  · intro ne hne
    simp only [getDomSnapshot, List.mem_append] at hne
    rcases hne with (hne | hne) | hne
    · rcases List.mem_filterMap.mp hne with ⟨n, -, hn⟩
      rcases Option.map_eq_some'.mp hn with ⟨e, he, rfl⟩
      rcases hfe : findDataName page n with - | ⟨r, txt⟩
      · simp only [toolEntryFor, hfe] at he
        exact absurd he (by simp)
      · simp only [toolEntryFor, hfe] at he
        split at he
        · exact (Option.some_inj.mp he) ▸ rfl
        · exact absurd he (by simp)
    · rcases hme : materialEntry page with - | e₀ <;> simp [hme] at hne
      rcases hne with ⟨-, rfl⟩
      exact materialEntry_found page e₀ hme
    · rcases hpe : publishEntry page with - | e₀ <;> simp [hpe] at hne
      rcases hne with ⟨-, rfl⟩
      exact publishEntry_found page e₀ hpe

/-- Witness for C8 (amended) at the concrete empty page. -/
theorem snapshot_absence_representation_witness :
    (getDomSnapshot emptyPage).editorTitle = none
    ∧ (getDomSnapshot emptyPage).editorBody = none
    ∧ toolEntryFor emptyPage "image" = none :=
  ⟨(snapshot_absence_representation emptyPage).1 rfl,
   (snapshot_absence_representation emptyPage).2.1 rfl,
   (snapshot_absence_representation emptyPage).2.2.1 "image" rfl⟩

/-! ## Publish-button click
(`AdaptivePublisher._click_publish_button`, adaptive_publisher.py lines
1063-1087, and the first stage of `NaverBlogPublisher._click_publish`,
naver_publisher.py lines 796-818) -/

/-- The header-publish-button probe of `_click_publish_button`: the first
`<button>` whose trimmed innerText equals `발행` and whose `rect.y < 100`
(a button matching the text but sitting lower does not return; the loop
continues). -/
def findHeaderPublishBtn (page : PageModel) : Option Coord :=
  page.buttons.findSome? fun b =>
    if b.2.trim = "발행" ∧ b.1.y < 100 then some (rectCenter b.1) else none

/-- Model of `AdaptivePublisher._click_publish_button`: click the probed coordinate
and report True, or report False with no dispatch when the probe found
nothing. -/
def clickPublishButton (page : PageModel) : Bool × List Step :=
  match findHeaderPublishBtn page with
  | some c => (true, clickAt c.1 c.2)
  | none => (false, [])

/-- The stage-1 probe of `NaverBlogPublisher._click_publish`: the first
`<button>` whose trimmed innerText equals `발행` (no position filter). -/
def naverFindPublishBtn (page : PageModel) : Option Coord :=
  page.buttons.findSome? fun b =>
    if b.2.trim = "발행" then some (rectCenter b.1) else none

/-- Stage 1 of `NaverBlogPublisher._click_publish`: on a missing button it
returns None immediately, dispatching nothing. -/
def naverClickPublishStage1 (page : PageModel) : Option Coord × List Step :=
  match naverFindPublishBtn page with
  | some c => (some c, clickAt c.1 c.2)
  | none => (none, [])

theorem findSome?_eq_none_of_all_none {α β : Type} (f : α → Option β)
    (l : List α) (h : ∀ a ∈ l, f a = none) : l.findSome? f = none := by
  induction l with
  | nil => rfl
  | cons a t ih =>
    rw [List.findSome?_cons, h a (by simp)]
    exact ih fun a' ha' => h a' (by simp [ha'])

/-- C7.  On a page state with no publish button — no `<button>` whose trimmed
text is `발행` — both publish-click steps report a resolution failure and
dispatch no input event at any coordinate. -/
theorem no_publish_button_no_click (page : PageModel)
    (h : ∀ b ∈ page.buttons, ¬ b.2.trim = "발행") :
    findHeaderPublishBtn page = none
    ∧ clickPublishButton page = (false, [])
    ∧ naverFindPublishBtn page = none
    ∧ naverClickPublishStage1 page = (none, []) := by
  have h1 : findHeaderPublishBtn page = none := by
    refine findSome?_eq_none_of_all_none _ _ fun b hb => ?_
    simp [h b hb]
  have h2 : naverFindPublishBtn page = none := by
    refine findSome?_eq_none_of_all_none _ _ fun b hb => ?_
    simp [h b hb]
  exact ⟨h1, by simp [clickPublishButton, h1], h2, by simp [naverClickPublishStage1, h2]⟩

/-- Witness for C7 at the concrete empty page (no buttons at all). -/
theorem no_publish_button_no_click_witness :
    clickPublishButton emptyPage = (false, [])
    ∧ naverClickPublishStage1 emptyPage = (none, []) :=
  ⟨(no_publish_button_no_click emptyPage (by simp [emptyPage])).2.1,
   (no_publish_button_no_click emptyPage (by simp [emptyPage])).2.2.2⟩

/-! ## Publish result and URL verification
(`AdaptivePublisher.publish`, adaptive_publisher.py lines 660-683) -/

/-- The `PublishResult` record of adaptive_publisher.py lines 36-42. -/
structure PublishResult where
  success : Bool
  blog_url : Option String
  error_message : Option String
  screenshots : List String
  deriving DecidableEq, Repr

/-- The published-post URL pattern: `"PostView" in url or "logNo" in url`. -/
def urlMatchesPublished (url : String) : Bool :=
  strContains url "PostView" || strContains url "logNo"

/-- The error message of the unverified-URL terminal state. -/
def urlUnverifiedMsg : String := "발행 후 URL 확인 실패"

/-- The final URL check of `AdaptivePublisher.publish`: a success result
carrying the URL when it matches the published-post pattern, otherwise the
fixed unverified-URL result. -/
def publishUrlCheck (url : String) (shots : List String) : PublishResult :=
  if urlMatchesPublished url then
    ⟨true, some url, none, shots⟩
  else
    ⟨false, none, some urlUnverifiedMsg, shots⟩

/-- The result the `except` clause of `publish` produces for an exception
with message `msg` (the hard-failure report). -/
def publishExceptionResult (msg : String) (shots : List String) : PublishResult :=
  ⟨false, none, some msg, shots⟩

/-- C6.  The publish run reports terminal success exactly when the resulting
page URL matches the published-post pattern (contains `PostView` or `logNo`);
when the URL does not match, the run ends in the fixed unverified-URL result
— the state the spec reports as ambiguous — which is neither the success
report (its `success` is false and it carries no URL) nor an
exception-driven hard failure (its message is the fixed verification marker,
produced by a normal return, not a raise). -/
theorem publish_success_iff_url_matches (url : String) (shots : List String) :
    ((publishUrlCheck url shots).success = true ↔ urlMatchesPublished url = true)
    ∧ (urlMatchesPublished url = false →
        publishUrlCheck url shots = ⟨false, none, some urlUnverifiedMsg, shots⟩)
    ∧ (urlMatchesPublished url = false →
        (publishUrlCheck url shots).error_message = some urlUnverifiedMsg) := by
  by_cases h : urlMatchesPublished url <;>
    simp [publishUrlCheck, h]

/-- Witness for C6: a URL with `logNo` verifies as success; a URL matching
neither pattern yields the unverified-URL (ambiguous) result. -/
theorem publish_success_iff_url_matches_witness :
    (publishUrlCheck "https://blog.naver.com/u?logNo=223" ["s.png"]).success = true
    ∧ publishUrlCheck "https://blog.naver.com/u/postwrite" []
        = ⟨false, none, some urlUnverifiedMsg, []⟩ := by
  constructor
  · exact (publish_success_iff_url_matches "https://blog.naver.com/u?logNo=223" ["s.png"]).1.mpr
      (by decide)
  · exact (publish_success_iff_url_matches "https://blog.naver.com/u/postwrite" []).2.1
      (by decide)

/-! ## Action directives and execution
(`AdaptivePublisher._execute_action`, adaptive_publisher.py lines 343-375) -/

/-- The action payload of an AI decision's `next_action`: the fields
`_execute_action` reads, each optional because the JSON may omit it.
A `coords` value, when present, is a two-element coordinate list. -/
structure Action where
  type_ : Option String
  coords : Option Coord
  value : Option String
  duration : Option Rat
  direction : Option String
  deriving DecidableEq, Repr

/-- The missing-payload action (`ai_decision.get("next_action", {})`). -/
def emptyAction : Action := ⟨none, none, none, none, none⟩

/-- Python truthiness of an optional string: present and non-empty. -/
def strTruthy : Option String → Bool
  | some s => !s.isEmpty
  | none => false

/-- Model of `AdaptivePublisher._execute_action`: dispatch the requested input events
and report True, or dispatch nothing and report False when the type is
unknown or a required field is missing.  A `click` without `coords` (and an
`input` without `coords` or truthy `value`) falls through every `elif` —
each tests a different `type` — and reaches the final `return False`. -/
def executeAction (a : Action) : Bool × List Step :=
  if a.type_ = some "click" then
    match a.coords with
    | some c => (true, clickAt c.1 c.2)
    | none => (false, [])
  else if a.type_ = some "input" then
    match a.coords, a.value with
    | some c, some v =>
      if v.isEmpty then (false, [])
      else (true, clickAt c.1 c.2 ++ [Step.sleepMs 200] ++ typeText v 18)
    | _, _ => (false, [])
  else if a.type_ = some "wait" then
    (true, [Step.sleepMs ((a.duration.getD 1) * 1000)])
  else if a.type_ = some "escape" then
    (true, pressEscapeSteps)
  else if a.type_ = some "scroll" then
    (true, scrollSteps (a.direction.getD "down"))
  else
    (false, [])

/-- An AI decision as `_smart_click` consumes it: the truthiness of its
`can_proceed` field, its `next_action` payload, and the optional error
text. -/
structure AiDecision where
  can_proceed : Bool
  next_action : Action
  error : Option String
  deriving DecidableEq, Repr

/-- The empty decision dict `{}` that `_analyze_current_state` returns when
AI analysis is off: every field absent, so `can_proceed` is falsy. -/
def emptyDecision : AiDecision := ⟨false, emptyAction, none⟩

/-- The validation gate of `_smart_click` (adaptive_publisher.py lines
508-517): execute `next_action` only when `can_proceed` is truthy, otherwise
report failure without executing anything. -/
def aiGate (d : AiDecision) : Bool × List Step :=
  if d.can_proceed then executeAction d.next_action else (false, [])

/-- The action types `_execute_action` knows. -/
def knownActionTypes : List String := ["click", "input", "wait", "escape", "scroll"]

/-- Whether an optional `type` field names a known action type. -/
def isKnownActionType : Option String → Bool
  | some t => knownActionTypes.contains t
  | none => false

/-- C3.  A directive is validated before execution: one whose `can_proceed`
is false (or absent, which is falsy) is never executed — the gate reports
failure and dispatches nothing — and a directive missing the required fields
for its type (`click` without `coords`, `input` without `coords` or with a
missing/empty `value`, or an unknown/missing type) makes the execute step
dispatch no input event and report False. -/
theorem directive_validation (d : AiDecision) (a : Action) :
    (d.can_proceed = false → aiGate d = (false, []))
    ∧ (a.type_ = some "click" → a.coords = none → executeAction a = (false, []))
    ∧ (a.type_ = some "input" → (a.coords = none ∨ strTruthy a.value = false) →
        executeAction a = (false, []))
    ∧ (isKnownActionType a.type_ = false → executeAction a = (false, [])) := by
  refine ⟨fun h => by simp [aiGate, h], fun ht hc => by simp [executeAction, ht, hc],
    fun ht hmiss => ?_, fun hunk => ?_⟩
  · have hne : ¬ a.type_ = some "click" := by simp [ht]
    rcases hmiss with hc | hv
    · simp [executeAction, ht, hne, hc]
    · rcases hcs : a.coords with - | c
      · simp [executeAction, ht, hne, hcs]
      · rcases hvs : a.value with - | v
        · simp [executeAction, ht, hne, hcs, hvs]
        · have hv' : v.isEmpty = true := by
            simpa [strTruthy, hvs] using hv
          simp [executeAction, ht, hne, hcs, hvs, hv']
  · have h1 : ¬ a.type_ = some "click" := fun h => by
      simp [h, isKnownActionType, knownActionTypes] at hunk
    have h2 : ¬ a.type_ = some "input" := fun h => by
      simp [h, isKnownActionType, knownActionTypes] at hunk
    have h3 : ¬ a.type_ = some "wait" := fun h => by
      simp [h, isKnownActionType, knownActionTypes] at hunk
    have h4 : ¬ a.type_ = some "escape" := fun h => by
      simp [h, isKnownActionType, knownActionTypes] at hunk
    have h5 : ¬ a.type_ = some "scroll" := fun h => by
      simp [h, isKnownActionType, knownActionTypes] at hunk
    simp [executeAction, h1, h2, h3, h4, h5]

/-- Witness for C3: a blocked decision, a coordinate-less click, a value-less
input and an unknown type all execute nothing. -/
theorem directive_validation_witness :
    aiGate ⟨false, ⟨some "click", some (10, 20), none, none, none⟩, none⟩ = (false, [])
    ∧ executeAction ⟨some "click", none, none, none, none⟩ = (false, [])
    ∧ executeAction ⟨some "input", some (10, 20), none, none, none⟩ = (false, [])
    ∧ executeAction ⟨some "drag", some (10, 20), none, none, none⟩ = (false, []) :=
  ⟨(directive_validation ⟨false, ⟨some "click", some (10, 20), none, none, none⟩, none⟩
      emptyAction).1 rfl,
   (directive_validation emptyDecision ⟨some "click", none, none, none, none⟩).2.1 rfl rfl,
   (directive_validation emptyDecision
      ⟨some "input", some (10, 20), none, none, none⟩).2.2.1 rfl (Or.inr rfl),
   (directive_validation emptyDecision
      ⟨some "drag", some (10, 20), none, none, none⟩).2.2.2 (by decide)⟩

/-! ## Smart click: the element-resolution chain
(`AdaptivePublisher._smart_click`, adaptive_publisher.py lines 480-517) -/

/-- The task-keyword → toolbar-key mapping of `_smart_click`, in insertion
order. -/
def taskToDomKey : List (String × String) :=
  [("이미지", "image"), ("글감", "material"), ("인용구", "quotation"),
   ("구분선", "horizontal-line"), ("볼드", "bold"), ("발행", "publish")]

/-- The local (snapshot) lookup of `_smart_click`: the first mapping whose
keyword occurs in the task string and whose toolbar entry exists with
`found` truthy yields that entry's coordinates; a keyword whose entry is
missing does not stop the scan. -/
def localLookup (task : String) (snap : DomSnapshot) : Option Coord :=
  taskToDomKey.findSome? fun kv =>
    if strContains task kv.1 then
      match snap.toolbar.lookup kv.2 with
      | some e => if e.found then some e.coords else none
      | none => none
    else none

/-- The outcome of `_smart_click`: the reported boolean, the dispatched
steps, and whether the AI reasoning service was consulted. -/
structure SmartClickOutcome where
  result : Bool
  steps : List Step
  aiInvoked : Bool
  deriving DecidableEq, Repr

/-- Model of `_analyze_current_state(task_context, use_ai)`: the AI decision it hands
back (the external service's answer `oracle` when `use_ai` is set, the empty
dict otherwise) together with whether the AI service was actually called. -/
def analyzeCurrentState (useAi : Bool) (oracle : AiDecision) : AiDecision × Bool :=
  if useAi then (oracle, true) else (emptyDecision, false)

/-- Model of `AdaptivePublisher._smart_click`: first the local snapshot lookup — on a
hit, click those coordinates and return True — otherwise analyze the current
state (the source calls `_analyze_current_state(task)` with its default
`use_ai=False`) and run the gated AI decision. -/
def smartClick (page : PageModel) (task : String) (oracle : AiDecision) :
    SmartClickOutcome :=
  let snap := getDomSnapshot page
  match localLookup task snap with
  | some c => ⟨true, clickAt c.1 c.2, false⟩
  | none =>
    let st := analyzeCurrentState false oracle
    let g := aiGate st.1
    ⟨g.1, g.2, st.2⟩

/-- C2.  The resolution chain short-circuits: when the local snapshot lookup
for the intent succeeds, `_smart_click` clicks the looked-up coordinates and
reports True without ever consulting the AI fallback; conversely, the AI
service can only have been consulted on a run where the local lookup failed. -/
theorem smart_click_short_circuit (page : PageModel) (task : String)
    (oracle : AiDecision) (c : Coord) :
    (localLookup task (getDomSnapshot page) = some c →
      smartClick page task oracle = ⟨true, clickAt c.1 c.2, false⟩)
    ∧ ((smartClick page task oracle).aiInvoked = true →
        localLookup task (getDomSnapshot page) = none) := by
  constructor
  · intro h
    simp [smartClick, h]
  · intro h
    rcases hl : localLookup task (getDomSnapshot page) with - | c'
    · rfl
    · simp [smartClick, hl, analyzeCurrentState] at h

/-- A page whose toolbar holds only the image button, at rect
(100, 200, 30, 30). -/
def imageOnlyPage : PageModel :=
  { url := "https://blog.naver.com/u/postwrite", title := "글쓰기",
    titleEl := none, bodyEl := none,
    dataNameEls := [("image", ⟨100, 200, 30, 30⟩, "사진")],
    buttons := [], popups := [], inputFields := [] }

/-- Witness for C2 at a concrete page and the task `"이미지 버튼 클릭"`:
the snapshot lookup hits the image button's center (115, 215), the click is
dispatched from it, and the AI fallback is not consulted. -/
theorem smart_click_short_circuit_witness :
    smartClick imageOnlyPage "이미지 버튼 클릭" emptyDecision
      = ⟨true, clickAt 115 215, false⟩ := by
  have h : localLookup "이미지 버튼 클릭" (getDomSnapshot imageOnlyPage)
      = some (115, 215) := by
    have hs : strContains "이미지 버튼 클릭" "이미지" = true := by decide
    simp only [localLookup, taskToDomKey, getDomSnapshot, imageOnlyPage, toolEntryFor,
      findDataName, toolButtons, materialEntry, publishEntry, rectCenter, hs,
      List.findSome?_cons, List.filterMap_cons, List.filterMap_nil, List.foldl_nil]
    norm_num [List.lookup]
  exact (smart_click_short_circuit imageOnlyPage "이미지 버튼 클릭" emptyDecision
    (115, 215)).1 h

/-! ## AI fallback decision
(`AdaptivePublisher._get_ai_decision_text_only`, adaptive_publisher.py lines
273-341; the fence-extraction logic is shared with
`DeepSeekVisionClient.analyze_with_json`, ai/ui_analyzer.py lines 139-171) -/

/-- What came back from the reasoning-service HTTP call: a raised exception
(network error, malformed response envelope, ...), or a response with its
status code, its error text (read on the non-200 path) and the extracted
`choices[0].message.content` string (read on the 200 path). -/
inductive AiHttpOutcome
  | failure (msg : String)
  | response (status : Nat) (errText : String) (content : String)
  deriving DecidableEq, Repr

/-- The code-fence extraction applied to the model's reply before JSON
parsing: the body of a ```json fence if present, else of the first ```
fence, else the whole reply — stripped.  Python slicing semantics apply
(`content.find` returns `-1` when the closing fence is missing). -/
def extractJsonStr (content : String) : String :=
  if 0 ≤ pyFind content "```json" then
    let start := pyFind content "```json" + 7
    let stop := pyFindAfter content "```" start.toNat
    (pySlice content start stop).trim
  else if 0 ≤ pyFind content "```" then
    let start := pyFind content "```" + 3
    let stop := pyFindAfter content "```" start.toNat
    (pySlice content start stop).trim
  else
    content.trim

/-- The `can_proceed=false` decision the `except`/non-200 paths build:
`{"error": msg, "can_proceed": False}`. -/
def aiErrorDecision (msg : String) : AiDecision :=
  ⟨false, emptyAction, some msg⟩

/-- Model of `AdaptivePublisher._get_ai_decision_text_only`, with the JSON parser
(`json.loads` plus the dict-field reads) abstracted as `parse`: any raised
exception and any non-200 status yield the error decision; a 200 response
has its content fence-extracted and parsed, a parse failure (the
`json.loads` exception, caught by the enclosing `except`) again yielding the
error decision. -/
def getAiDecisionTextOnly (parse : String → Option AiDecision) :
    AiHttpOutcome → AiDecision
  | .failure msg => aiErrorDecision msg
  | .response status errText content =>
    if status ≠ 200 then aiErrorDecision errText
    else
      match parse (extractJsonStr content) with
      | some d => d
      | none => aiErrorDecision "JSONDecodeError"

/-- C4.  Every reasoning-service outcome that is not a parseable 200
response — a raised error, a non-200 status, or a 200 whose extracted
content `parse` rejects — produces a decision with `can_proceed = false`
rather than an exception; and a payload that parses to a directive with
`can_proceed = false` round-trips through the resolution gate to the failure
outcome `(false, [])` — unresolved, with nothing executed and no crash. -/
theorem ai_decision_error_handling (parse : String → Option AiDecision)
    (msg errText content : String) (status : Nat) (d : AiDecision) :
    ((getAiDecisionTextOnly parse (.failure msg)).can_proceed = false)
    ∧ (status ≠ 200 →
        (getAiDecisionTextOnly parse (.response status errText content)).can_proceed
          = false)
    ∧ (parse (extractJsonStr content) = none →
        (getAiDecisionTextOnly parse (.response 200 errText content)).can_proceed
          = false)
    ∧ (parse (extractJsonStr content) = some d → d.can_proceed = false →
        aiGate (getAiDecisionTextOnly parse (.response 200 errText content))
          = (false, [])) := by
  refine ⟨rfl, fun h => by simp [getAiDecisionTextOnly, h, aiErrorDecision],
    fun h => by simp [getAiDecisionTextOnly, h, aiErrorDecision],
    fun h hd => by simp [getAiDecisionTextOnly, h, aiGate, hd]⟩

/-- A parser that rejects every payload. -/
def rejectAllParse : String → Option AiDecision := fun _ => none

/-- A parser that reads every payload as a `can_proceed=false` directive. -/
def blockedParse : String → Option AiDecision := fun _ => some ⟨false, emptyAction, none⟩

/-- Witness for C4 at concrete outcomes: a 404, an unparseable 200 reply,
and a 200 reply parsing to `can_proceed=false` all end in `can_proceed =
false` / the unresolved gate outcome. -/
theorem ai_decision_error_handling_witness :
    (getAiDecisionTextOnly rejectAllParse
        (.response 404 "Not Found" "")).can_proceed = false
    ∧ (getAiDecisionTextOnly rejectAllParse
        (.response 200 "" "I cannot answer that")).can_proceed = false
    ∧ aiGate (getAiDecisionTextOnly blockedParse
        (.response 200 "" "\x7b\"can_proceed\": false\x7d")) = (false, []) :=
  ⟨(ai_decision_error_handling rejectAllParse "" "Not Found" "" 404
      ⟨false, emptyAction, none⟩).2.1 (by decide),
   (ai_decision_error_handling rejectAllParse "" "" "I cannot answer that" 200
      ⟨false, emptyAction, none⟩).2.2.1 rfl,
   (ai_decision_error_handling blockedParse "" "" "\x7b\"can_proceed\": false\x7d" 200
      ⟨false, emptyAction, none⟩).2.2.2 rfl rfl⟩

/-! ## Link-section insertion
(`AdaptivePublisher._handle_oglink`, adaptive_publisher.py lines 926-1061) -/

/-- The display text: `link_text or url` (an empty `link_text` is falsy). -/
def displayTextOf (url : String) (linkText : Option String) : String :=
  match linkText with
  | some s => if s.isEmpty then url else s
  | none => url

/-- The Ctrl-A select-all key pair the URL-entry step sends. -/
def ctrlASteps : List Step :=
  [Step.key ⟨KeyKind.keyDown, "a", none, some "KeyA", none, some 2⟩,
   Step.key ⟨KeyKind.keyUp, "a", none, some "KeyA", none, none⟩]

/-- The Enter confirm key pair. -/
def enterSteps : List Step :=
  [Step.key enterDown, Step.key enterUp]

/-- The End key pair that moves the cursor past the inserted link. -/
def endKeySteps : List Step :=
  [Step.key ⟨KeyKind.keyDown, "End", none, some "End", none, none⟩,
   Step.key ⟨KeyKind.keyUp, "End", none, some "End", none, none⟩]

/-- Model of `AdaptivePublisher._handle_oglink`, with the three in-page probes (body
paragraph, `[data-name="text-link"]` button, URL input field) supplied as
inputs.  The display text is typed *before* the text-link button is probed;
both failure paths then type a newline and return False. -/
def handleOglink (url : String) (linkText : Option String)
    (bodyProbe textlinkProbe urlInputProbe : Option Coord) : Bool × List Step :=
  let pre : List Step :=
    pressEscapeSteps ++ [Step.sleepMs 200]
    ++ (match bodyProbe with
        | some c => clickAt c.1 c.2 ++ [Step.sleepMs 300]
        | none => [])
    ++ typeText (displayTextOf url linkText) 18 ++ [Step.sleepMs 300]
  match textlinkProbe with
  | none => (false, pre ++ typeText "\n" 18)
  | some tc =>
    let mid := pre ++ clickAt tc.1 tc.2 ++ [Step.sleepMs 500]
    match urlInputProbe with
    | some ic =>
      (true,
       mid ++ clickAt ic.1 ic.2 ++ [Step.sleepMs 100]
       ++ ctrlASteps ++ [Step.sleepMs 50]
       ++ typeText url 18 ++ [Step.sleepMs 300]
       ++ enterSteps ++ [Step.sleepMs 500]
       ++ endKeySteps ++ typeText "\n" 18)
    | none => (false, mid ++ pressEscapeSteps ++ typeText "\n" 18)

theorem charTexts_append (a b : List Step) :
    charTexts (a ++ b) = charTexts a ++ charTexts b := by
  simp [charTexts, List.filterMap_append]

/-- The character a `char` key event carries for each typed character:
`"\r"` for a newline (the synthetic Enter), the character itself otherwise. -/
def typedCharText (c : Char) : String :=
  if c = '\n' then "\r" else String.singleton c

theorem charTexts_typeCharSteps (c : Char) (d : Rat) :
    charTexts (typeCharSteps c d) = [typedCharText c] := by
  by_cases h : c = '\n' <;>
    simp [typeCharSteps, charTexts, typedCharText, h, enterDown, enterChar, enterUp]

theorem charTexts_typeText (s : String) (d : Rat) :
    charTexts (typeText s d) = s.data.map typedCharText := by
  unfold typeText
  induction s.data with
  | nil => simp [charTexts]
  | cons c cs ih =>
    simp only [List.flatMap_cons, charTexts_append, ih, charTexts_typeCharSteps,
      List.map_cons, List.singleton_append]

theorem charTexts_clickAt (x y : Rat) : charTexts (clickAt x y) = [] := by
  simp [clickAt, charTexts]

theorem charTexts_pressEscape : charTexts pressEscapeSteps = [] := by
  simp [pressEscapeSteps, charTexts]

theorem charTexts_ctrlA : charTexts ctrlASteps = [] := by
  simp [ctrlASteps, charTexts]

/-- C10.  Link insertion is not atomic on failure: whenever the text-link
button or the URL input field cannot be found, `_handle_oglink` returns
False, but the trace it has dispatched by then has already typed the link's
display text followed by a trailing newline (the Enter `char` payload
`"\r"`) into the editor — the failed insertion leaves the typed text behind. -/
theorem oglink_failure_leaves_text (url : String) (linkText : Option String)
    (bodyProbe textlinkProbe urlInputProbe : Option Coord)
    (hfail : textlinkProbe = none ∨ urlInputProbe = none) :
    (handleOglink url linkText bodyProbe textlinkProbe urlInputProbe).1 = false
    ∧ charTexts (handleOglink url linkText bodyProbe textlinkProbe urlInputProbe).2
        = (displayTextOf url linkText).data.map typedCharText ++ ["\r"] := by
  have hsleep : ∀ m : Rat, charTexts [Step.sleepMs m] = [] := fun m => rfl
  have hbody : charTexts
      (match bodyProbe with
       | some c => clickAt c.1 c.2 ++ [Step.sleepMs 300]
       | none => ([] : List Step)) = [] := by
    rcases bodyProbe with - | c
    · rfl
    · rw [charTexts_append, charTexts_clickAt, hsleep]
      rfl
  have hnl : charTexts (typeText "\n" 18) = ["\r"] := by
    rw [charTexts_typeText]
    rfl
  rcases htl : textlinkProbe with - | tc
  · refine ⟨by simp [handleOglink], ?_⟩
    simp only [handleOglink, charTexts_append, charTexts_pressEscape, hsleep, hbody, hnl,
      charTexts_typeText, List.append_nil, List.nil_append]
  · rcases hui : urlInputProbe with - | ic
    · refine ⟨by simp [handleOglink], ?_⟩
      simp only [handleOglink, charTexts_append, charTexts_pressEscape, hsleep, hbody, hnl,
        charTexts_typeText, charTexts_clickAt, List.append_nil, List.nil_append]
    · rcases hfail with h | h
      · exact absurd (htl ▸ h) (by simp)
      · exact absurd (hui ▸ h) (by simp)

/-- Witness for C10 at concrete inputs: with no text-link button on the
page, inserting `https://e.com` with display text `"링크"` fails with the
display text and a trailing Enter already typed. -/
theorem oglink_failure_leaves_text_witness :
    (handleOglink "https://e.com" (some "링크") none none none).1 = false
    ∧ charTexts (handleOglink "https://e.com" (some "링크") none none none).2
        = ("링크".data.map typedCharText) ++ ["\r"] := by
  have h := oglink_failure_leaves_text "https://e.com" (some "링크") none none none
    (Or.inl rfl)
  simpa [displayTextOf] using h

end BlogWriter
